import Mathlib

/-
Verification development for the neuropod python bridge
(source/neuropod/backends/python_bridge/python_bridge.cc).

The C++ source is shallowly embedded as follows:
- `set_python_path` (python_bridge.cc:22-38) becomes a pure function from the
  list of paths to add and the current value of the PYTHONPATH environment
  variable to the value written back (setenv with overwrite = 1 always writes,
  so the result is always `some`).
- Interpreter-resident operations (GIL acquisition/release, handle creation and
  release, python calls) are recorded as explicit event traces; a trace checker
  `gilDisciplined` verifies that every interpreter-touching event happens while
  the GIL depth is positive.
- `maybe_initialize` (python_bridge.cc:41-74) becomes a function of the
  platform flag (the APPLE preprocessor conditional), whether dlopen can find
  the already-linked libpython (RTLD_NOLOAD), and the interpreter state.
- `PythonBridge` construction (python_bridge.cc:83-107), destruction (109-117),
  `SealedPythonValueMap` (119-139), `get_sealed_map` (141-144) and
  `infer_internal` (147-169) become explicit trace+state functions,
  parameterized over the behavior of the external python world (the loader
  module, the model object, the dtype-coercion helper), which lives outside
  this translation unit.
-/

namespace neuropod

/-- An interpreter-side value. `numpyArray t` is the numpy conversion of the
native tensor with id `t`; `obj id` is any other python object. -/
inductive PyVal
  | numpyArray (tensor : Nat)
  | obj (id : Nat)
  deriving DecidableEq, Repr

/-- A `py::dict`, modeled as an insertion-ordered association list. -/
abbrev PyDict := List (String × PyVal)

/-- Names of the interpreter-resident handles this translation unit creates. -/
inductive HName
  | loadEntry
  | convertTypes
  | model
  | sealedDict
  deriving DecidableEq, Repr

/-- Primitive events performed by the bridge, in program order. -/
inductive Event
  | gilAcquire
  | gilRelease
  | createHandle (h : HName)
  | releaseHandle (h : HName)
  | dictAssign (name : String)
  | ensureLocalCall
  | callLoadNeuropod (path : String)
  | callModelInfer (inputs : PyDict)
  | callConvertTypes (d : PyDict)
  | fromNumpyDictCall (d : PyDict)
  | dlopenPromote
  | setPythonHome (venv : String)
  | startInterpreter
  deriving DecidableEq, Repr

/-- Whether an event operates on interpreter-resident state and therefore
requires the GIL. Native-only work (the dlopen promotion, setenv calls, the
loader's local materialization) does not. -/
def Event.touchesInterpreter : Event → Bool
  | Event.gilAcquire => false
  | Event.gilRelease => false
  | Event.ensureLocalCall => false
  | Event.dlopenPromote => false
  | Event.setPythonHome _ => false
  | Event.startInterpreter => false
  | _ => true

/-- Check a trace against the GIL discipline: every interpreter-touching event
must occur at positive lock depth, and releases must match acquisitions. -/
def gilDisciplined : List Event → Nat → Bool
  | [], _ => true
  | Event.gilAcquire :: rest, d => gilDisciplined rest (d + 1)
  | Event.gilRelease :: rest, d => decide (0 < d) && gilDisciplined rest (d - 1)
  | e :: rest, d => (! e.touchesInterpreter || decide (0 < d)) && gilDisciplined rest d

/-- python_bridge.cc:22-38. The loop writes each directory followed by a colon
into the stream, then appends the pre-existing PYTHONPATH value if getenv
returned non-null. This function is the final stream contents. -/
def python_path_string : List String → Option String → String
  | [], some existing => existing
  | [], none => ""
  | dir :: rest, existing => dir ++ ":" ++ python_path_string rest existing

/-- python_bridge.cc:22-38, `set_python_path`. Takes the current value of the
PYTHONPATH environment variable (none when unset) and returns its value after
the call; setenv is called with overwrite = 1, so the variable is always
written. -/
def set_python_path (paths_to_add : List String) (existing : Option String) : Option String :=
  some (python_path_string paths_to_add existing)

/-- Errors surfaced by the bridge. -/
inductive Err
  | interpreterStartupFailure (msg : String)
  | modelLoadFailure (msg : String)
  | pythonException (msg : String)
  deriving DecidableEq, Repr

/-- python_bridge.cc:58. The message passed to NEUROPOD_ERROR (the dlerror()
suffix is elided). -/
def dlopen_error_message : String :=
  "Failed to promote libpython to RTLD_GLOBAL. Error from dlopen: "

/-- Process-wide interpreter state visible to `maybe_initialize`:
whether Py_IsInitialized() is true, and the VIRTUAL_ENV / PYTHONHOME
environment variables. -/
structure InterpState where
  running : Bool
  virtual_env : Option String
  pythonhome : Option String
  deriving DecidableEq, Repr

/-- python_bridge.cc:41-74, `maybe_initialize`. `apple` is the APPLE
preprocessor conditional (on apple platforms the dlopen promotion block is
compiled out); `libpython_loadable` is whether dlopen with RTLD_NOLOAD finds
libpython. Returns the event trace and either a startup error or the new
interpreter state together with the optional gil-release token. -/
def maybe_initialize (apple libpython_loadable : Bool) (st : InterpState) :
    List Event × Except Err (InterpState × Option Unit) :=
  if st.running then
    ([], Except.ok (st, none))
  else if !apple && !libpython_loadable then
    ([Event.dlopenPromote], Except.error (Err.interpreterStartupFailure dlopen_error_message))
  else
    let promo : List Event := if apple then [] else [Event.dlopenPromote]
    match st.virtual_env with
    | some venv =>
        (promo ++ [Event.setPythonHome venv, Event.startInterpreter],
         Except.ok (⟨true, st.virtual_env, some venv⟩, some ()))
    | none =>
        (promo ++ [Event.startInterpreter],
         Except.ok (⟨true, st.virtual_env, st.pythonhome⟩, some ()))

/-- Lookup in a `py::dict`: the value stored under key `k`, if any. -/
def dictGet : PyDict → String → Option PyVal
  | [], _ => none
  | kv :: rest, k => if kv.1 = k then some kv.2 else dictGet rest k

/-- Number of entries of a `py::dict` whose key is `k`. -/
def dictCount : PyDict → String → Nat
  | [], _ => 0
  | kv :: rest, k => (if kv.1 = k then 1 else 0) + dictCount rest k

/-- Whether a `py::dict` has an entry with key `k`. -/
def dictHasKey : PyDict → String → Bool
  | [], _ => false
  | kv :: rest, k => kv.1 == k || dictHasKey rest k

/-- Assignment into a `py::dict` (`d[k] = v`): when the key is present its
entry is overwritten in place (insertion order preserved), otherwise the new
entry is appended. -/
def dictSet (d : PyDict) (k : String) (v : PyVal) : PyDict :=
  if dictHasKey d k then
    d.map (fun kv => if kv.1 = k then (k, v) else kv)
  else
    d ++ [(k, v)]

/-- Modelled from the spec: TensorCodec.to_interpreter (`tensor_to_numpy`,
declared in neuropod/bindings/python_bindings.hh, which is not under src/).
Conversion always produces a fresh interpreter-native array preserving the
native tensor's value; native tensors are identified by a `Nat` id. -/
def tensor_to_numpy (t : Nat) : PyVal :=
  PyVal.numpyArray t

/-- A natively-owned tensor produced by the output conversion: it records the
allocator that produced its buffer and the interpreter value it was converted
from. -/
structure NativeTensor where
  alloc : Nat
  value : PyVal
  deriving DecidableEq, Repr

/-- Modelled from the spec: TensorCodec.from_interpreter (`from_numpy_dict`,
declared in neuropod/bindings/python_bindings.hh, which is not under src/).
Converts each entry of the dict into a natively-owned tensor using the given
allocator for the resulting buffer. -/
def from_numpy_dict (alloc : Nat) (d : PyDict) : List (String × NativeTensor) :=
  d.map (fun kv => (kv.1, ⟨alloc, kv.2⟩))

/-- python_bridge.cc:119-139. The interpreter-owned dict accumulating converted
inputs. -/
structure SealedPythonValueMap where
  out : PyDict
  deriving DecidableEq, Repr

/-- python_bridge.cc:122. The constructor body runs
`out(stdx::make_unique<py::dict>())`, allocating a python dict — an
interpreter-resident handle — without any `py::gil_scoped_acquire` in scope. -/
def SealedPythonValueMap.construct : List Event × SealedPythonValueMap :=
  ([Event.createHandle HName.sealedDict], ⟨[]⟩)

/-- python_bridge.cc:123-129. The destructor acquires the GIL and resets the
dict handle. -/
def SealedPythonValueMap.destruct_trace : List Event :=
  [Event.gilAcquire, Event.releaseHandle HName.sealedDict, Event.gilRelease]

/-- python_bridge.cc:131-138, `seal`. Acquires the GIL, converts the item to
numpy and assigns it into the dict under `name`. Items are native tensors
identified by a `Nat` id (the `dynamic_pointer_cast<NeuropodTensor>` is the
identity on them). -/
def SealedPythonValueMap.seal (m : SealedPythonValueMap) (name : String) (item : Nat) :
    List Event × SealedPythonValueMap :=
  ([Event.gilAcquire, Event.dictAssign name, Event.gilRelease],
   ⟨dictSet m.out name (tensor_to_numpy item)⟩)

/-- python_bridge.cc:141-144, `PythonBridge::get_sealed_map`: constructs a
fresh `SealedPythonValueMap`. -/
def PythonBridge.get_sealed_map : List Event × SealedPythonValueMap :=
  SealedPythonValueMap.construct

/-- Behavior of the external python world and loader, which live outside this
translation unit: whether the two `py::module::import(...).attr(...)`
resolutions at python_bridge.cc:95 and 98-99 succeed, the loader's
`ensure_local`, the `load_neuropod` python callable (model objects are
identified by a `Nat` id), the loaded model's `infer` method, and the
`maybe_convert_bindings_types` python callable. -/
structure PyWorld where
  resolve_load_neuropod : Except Err Unit
  resolve_convert_types : Except Err Unit
  ensure_local : Except Err String
  load_neuropod : String → Except Err Nat
  model_infer : Nat → PyDict → Except Err PyDict
  convert_types : PyDict → PyDict

/-- The two handle members of `PythonBridge` (`neuropod_` and
`maybe_convert_bindings_types_`, both `std::unique_ptr<py::object>`, so `none`
models a null pointer), plus the backend's default tensor allocator (from
`NeuropodBackendWithDefaultAllocator`, identified by a `Nat` id). -/
structure PythonBridge where
  allocator : Nat
  neuropod_ : Option Nat
  maybe_convert_bindings_types_ : Option Unit
  deriving DecidableEq, Repr

/-- Result of running the `PythonBridge` constructor: the event trace, the
PYTHONPATH value after the call, and either the propagated error or the
constructed bridge. -/
structure ConstructOutcome where
  trace : List Event
  pythonpath : Option String
  result : Except Err PythonBridge

/-- python_bridge.cc:83-107, the `PythonBridge` constructor. Steps: modify
PYTHONPATH (line 89); acquire the GIL (line 92); resolve `load_neuropod` into
a local `py::object` (line 95, handle `loadEntry`); resolve and store
`maybe_convert_bindings_types` (lines 98-99, handle `convertTypes`); run the
loader's `ensure_local` (line 103); call `load_neuropod` and store the model
(line 106, handle `model`).

On an exception, C++ unwinding first destroys the constructor body's locals in
reverse order (the `loadEntry` py::object is decref'd while `gil` is still
alive, then `gil` releases the GIL) and then destroys the already-constructed
member `maybe_convert_bindings_types_` (after the GIL was released). On
success the locals are destroyed the same way at the end of the body and the
two member handles are retained. -/
def PythonBridge.construct (w : PyWorld) (alloc : Nat) (python_path_additions : List String)
    (pythonpath : Option String) : ConstructOutcome :=
  let env2 := set_python_path python_path_additions pythonpath
  match w.resolve_load_neuropod with
  | Except.error e =>
      ⟨[Event.gilAcquire, Event.gilRelease], env2, Except.error e⟩
  | Except.ok _ =>
    match w.resolve_convert_types with
    | Except.error e =>
        ⟨[Event.gilAcquire, Event.createHandle HName.loadEntry,
          Event.releaseHandle HName.loadEntry, Event.gilRelease], env2, Except.error e⟩
    | Except.ok _ =>
      match w.ensure_local with
      | Except.error e =>
          ⟨[Event.gilAcquire, Event.createHandle HName.loadEntry,
            Event.createHandle HName.convertTypes, Event.ensureLocalCall,
            Event.releaseHandle HName.loadEntry, Event.gilRelease,
            Event.releaseHandle HName.convertTypes], env2, Except.error e⟩
      | Except.ok local_path =>
        match w.load_neuropod local_path with
        | Except.error e =>
            ⟨[Event.gilAcquire, Event.createHandle HName.loadEntry,
              Event.createHandle HName.convertTypes, Event.ensureLocalCall,
              Event.callLoadNeuropod local_path,
              Event.releaseHandle HName.loadEntry, Event.gilRelease,
              Event.releaseHandle HName.convertTypes], env2, Except.error e⟩
        | Except.ok model_obj =>
            ⟨[Event.gilAcquire, Event.createHandle HName.loadEntry,
              Event.createHandle HName.convertTypes, Event.ensureLocalCall,
              Event.callLoadNeuropod local_path, Event.createHandle HName.model,
              Event.releaseHandle HName.loadEntry, Event.gilRelease], env2,
             Except.ok ⟨alloc, some model_obj, some ()⟩⟩

/-- python_bridge.cc:109-117, the `PythonBridge` destructor: acquire the GIL,
reset `maybe_convert_bindings_types_` (line 115), then reset `neuropod_`
(line 116). Resetting a null `unique_ptr` releases nothing. -/
def PythonBridge.destruct (b : PythonBridge) : List Event :=
  [Event.gilAcquire]
  ++ (match b.maybe_convert_bindings_types_ with
      | some _ => [Event.releaseHandle HName.convertTypes]
      | none => [])
  ++ (match b.neuropod_ with
      | some _ => [Event.releaseHandle HName.model]
      | none => [])
  ++ [Event.gilRelease]

/-- True exactly on the `maybe_convert_bindings_types` call event. -/
def Event.isCoercionCall : Event → Bool
  | Event.callConvertTypes _ => true
  | _ => false

/-- python_bridge.cc:147-169, `PythonBridge::infer_internal`: cast the input to
`SealedPythonValueMap` (the cast is unchecked; here the argument already has
that type), acquire the GIL, call the model's `infer` method on the sealed
dict, apply `maybe_convert_bindings_types` once to the whole raw output dict,
convert each entry to a native tensor with the bridge's allocator, and return.
Dereferencing a null handle member is undefined behavior in the source; it is
mapped to a `pythonException` here so the function stays total. -/
def PythonBridge.infer_internal (w : PyWorld) (b : PythonBridge)
    (inputs : SealedPythonValueMap) :
    List Event × Except Err (List (String × NativeTensor)) :=
  match b.neuropod_, b.maybe_convert_bindings_types_ with
  | some model_obj, some _ =>
    (match w.model_infer model_obj inputs.out with
     | Except.error e =>
         ([Event.gilAcquire, Event.callModelInfer inputs.out, Event.gilRelease],
          Except.error e)
     | Except.ok raw =>
         ([Event.gilAcquire, Event.callModelInfer inputs.out,
           Event.callConvertTypes raw, Event.fromNumpyDictCall (w.convert_types raw),
           Event.gilRelease],
          Except.ok (from_numpy_dict b.allocator (w.convert_types raw))))
  | _, _ => ([], Except.error (Err.pythonException "null handle"))

/-- A concrete external world in which every step succeeds: the loader
resolves, the model is at "/tmp/model", loading yields model object 7, and the
model's infer and the coercion pass are identities on dicts. -/
def demo_world : PyWorld where
  resolve_load_neuropod := Except.ok ()
  resolve_convert_types := Except.ok ()
  ensure_local := Except.ok "/tmp/model"
  load_neuropod := fun _ => Except.ok 7
  model_infer := fun _ d => Except.ok d
  convert_types := fun d => d

/-- The outcome of running the constructor in `demo_world`. -/
def demo_construct : ConstructOutcome :=
  PythonBridge.construct demo_world 0 [] none

/-- The bridge produced by construction in `demo_world`. -/
def demo_bridge : PythonBridge :=
  ⟨0, some 7, some ()⟩

/-- A concrete external world in which the `load_neuropod` call raises. -/
def fail_world : PyWorld where
  resolve_load_neuropod := Except.ok ()
  resolve_convert_types := Except.ok ()
  ensure_local := Except.ok "/tmp/model"
  load_neuropod := fun _ => Except.error (Err.modelLoadFailure "load failed")
  model_infer := fun _ d => Except.ok d
  convert_types := fun d => d

theorem python_path_string_some (l : List String) (e : String) :
    python_path_string l (some e) = python_path_string l none ++ e := by
  induction l with
  | nil => simp [python_path_string]
  | cons d rest ih => simp [python_path_string, ih, String.append_assoc]

theorem python_path_string_concat (l : List String) (d : String) :
    python_path_string (l ++ [d]) none = python_path_string l none ++ (d ++ ":") := by
  induction l with
  | nil => simp [python_path_string]
  | cons d1 rest ih => simp [python_path_string, ih, String.append_assoc]

theorem dictHasKey_false_of_not_mem {d : PyDict} {k : String}
    (h : k ∉ d.map Prod.fst) : dictHasKey d k = false := by
  induction d with
  | nil => rfl
  | cons kv rest ih =>
    simp only [List.map_cons, List.mem_cons] at h
    push_neg at h
    simp [dictHasKey, ih h.2, h.1.symm]

theorem dictHasKey_true_of_mem {d : PyDict} {k : String}
    (h : k ∈ d.map Prod.fst) : dictHasKey d k = true := by
  induction d with
  | nil => simp at h
  | cons kv rest ih =>
    simp only [List.map_cons, List.mem_cons] at h
    rcases h with h1 | h2
    · simp [dictHasKey, h1]
    · simp [dictHasKey, ih h2]

theorem dictGet_append_of_hasKey_false {d : PyDict} {k : String} (v : PyVal)
    (h : dictHasKey d k = false) : dictGet (d ++ [(k, v)]) k = some v := by
  induction d with
  | nil => simp [dictGet]
  | cons kv rest ih =>
    simp only [dictHasKey, Bool.or_eq_false_iff, beq_eq_false_iff_ne, ne_eq] at h
    simpa [dictGet, h.1] using ih h.2

theorem dictGet_map_of_hasKey_true {d : PyDict} {k : String} (v : PyVal)
    (h : dictHasKey d k = true) :
    dictGet (d.map (fun kv => if kv.1 = k then (k, v) else kv)) k = some v := by
  induction d with
  | nil => simp [dictHasKey] at h
  | cons kv rest ih =>
    by_cases hk : kv.1 = k
    · simp [dictGet, hk]
    · simp only [dictHasKey, Bool.or_eq_true, beq_iff_eq, hk, false_or] at h
      simpa [dictGet, hk] using ih h

theorem dictGet_dictSet (d : PyDict) (k : String) (v : PyVal) :
    dictGet (dictSet d k v) k = some v := by
  by_cases h : dictHasKey d k
  · simp [dictSet, h, dictGet_map_of_hasKey_true]
  · simp only [Bool.not_eq_true] at h
    simp [dictSet, h, dictGet_append_of_hasKey_false]

theorem dictCount_zero_of_hasKey_false {d : PyDict} {k : String}
    (h : dictHasKey d k = false) : dictCount d k = 0 := by
  induction d with
  | nil => rfl
  | cons kv rest ih =>
    simp only [dictHasKey, Bool.or_eq_false_iff, beq_eq_false_iff_ne, ne_eq] at h
    simp [dictCount, h.1, ih h.2]

theorem dictCount_append (d : PyDict) (k : String) (v : PyVal) :
    dictCount (d ++ [(k, v)]) k = dictCount d k + 1 := by
  induction d with
  | nil => simp [dictCount]
  | cons kv rest ih => simp [dictCount, ih]; omega

theorem dictCount_map_overwrite (d : PyDict) (k : String) (v : PyVal) :
    dictCount (d.map (fun kv => if kv.1 = k then (k, v) else kv)) k = dictCount d k := by
  induction d with
  | nil => rfl
  | cons kv rest ih =>
    by_cases hk : kv.1 = k
    · simp [dictCount, hk, ih]
    · simp [dictCount, hk, ih]

theorem dictCount_one_of_nodup {d : PyDict} {k : String}
    (hn : (d.map Prod.fst).Nodup) (h : dictHasKey d k = true) : dictCount d k = 1 := by
  induction d with
  | nil => simp [dictHasKey] at h
  | cons kv rest ih =>
    simp only [List.map_cons, List.nodup_cons] at hn
    by_cases hk : kv.1 = k
    · have hrest : dictHasKey rest k = false := by
        apply dictHasKey_false_of_not_mem
        rw [← hk]
        exact hn.1
      simp [dictCount, hk, dictCount_zero_of_hasKey_false hrest]
    · simp only [dictHasKey, Bool.or_eq_true, beq_iff_eq, hk, false_or] at h
      simp [dictCount, hk, ih hn.2 h]

theorem dictCount_dictSet (d : PyDict) (k : String) (v : PyVal)
    (hn : (d.map Prod.fst).Nodup) : dictCount (dictSet d k v) k = 1 := by
  by_cases h : dictHasKey d k
  · simp [dictSet, h, dictCount_map_overwrite, dictCount_one_of_nodup hn h]
  · simp only [Bool.not_eq_true] at h
    simp [dictSet, h, dictCount_append, dictCount_zero_of_hasKey_false h]

theorem dictSet_keys_of_hasKey_true (d : PyDict) (k : String) (v : PyVal) :
    (d.map (fun kv => if kv.1 = k then (k, v) else kv)).map Prod.fst = d.map Prod.fst := by
  induction d with
  | nil => rfl
  | cons kv rest ih =>
    by_cases hk : kv.1 = k
    · simp [hk, ih]
    · simp [hk, ih]

theorem dictSet_keys_nodup {d : PyDict} (k : String) (v : PyVal)
    (hn : (d.map Prod.fst).Nodup) : ((dictSet d k v).map Prod.fst).Nodup := by
  by_cases h : dictHasKey d k
  · simp only [dictSet, h, if_true]
    rw [dictSet_keys_of_hasKey_true]
    exact hn
  · simp only [Bool.not_eq_true] at h
    have hk : k ∉ d.map Prod.fst := fun hmem => by
      simp [dictHasKey_true_of_mem hmem] at h
    simp only [dictSet, h, Bool.false_eq_true, if_false, List.map_append, List.map_cons,
      List.map_nil]
    rw [List.nodup_append]
    refine ⟨hn, List.nodup_singleton k, ?_⟩
    intro a ha hb
    simp only [List.mem_singleton] at hb
    subst hb
    exact hk ha

/-- C1: the claim says every interpreter-resident handle operation of the
bridge runs with the GIL held, and lists `get_sealed_map` among them. The
`SealedPythonValueMap` constructor run by `get_sealed_map` allocates its
`py::dict` handle with no `gil_scoped_acquire` in scope, so its trace violates
the GIL discipline at depth 0 — while `seal` and the sealed map's destructor do
hold the GIL for their handle operations. -/
theorem sealed_map_handle_ops_gil :
    gilDisciplined PythonBridge.get_sealed_map.1 0 = false
    ∧ (∀ (m : SealedPythonValueMap) (name : String) (item : Nat),
        gilDisciplined (m.seal name item).1 0 = true)
    ∧ gilDisciplined SealedPythonValueMap.destruct_trace 0 = true :=
  ⟨rfl, fun _ _ _ => rfl, rfl⟩

/-- C2: if the loader's `load_neuropod` entry point fails during construction,
the constructor propagates that failure, every interpreter handle created
during the attempt is also released (the partially constructed bridge retains
neither the model handle — never created — nor the coercion handle, which is
released during unwinding), and destroying a bridge with both handle members
null releases nothing. -/
theorem construct_load_failure (w : PyWorld) (alloc : Nat) (paths : List String)
    (env : Option String) (p : String) (e : Err)
    (h1 : w.resolve_load_neuropod = Except.ok ()) (h2 : w.resolve_convert_types = Except.ok ())
    (h3 : w.ensure_local = Except.ok p) (h4 : w.load_neuropod p = Except.error e) :
    (PythonBridge.construct w alloc paths env).result = Except.error e
    ∧ (∀ h : HName,
        ((PythonBridge.construct w alloc paths env).trace.count (Event.createHandle h)) =
          ((PythonBridge.construct w alloc paths env).trace.count (Event.releaseHandle h)))
    ∧ PythonBridge.destruct ⟨alloc, none, none⟩ = [Event.gilAcquire, Event.gilRelease] := by
  refine ⟨?_, ?_, rfl⟩
  · simp [PythonBridge.construct, h1, h2, h3, h4]
  · intro h
    simp only [PythonBridge.construct, h1, h2, h3, h4]
    cases h <;> simp [List.count_cons]

/-- C2 witness: the theorem applied in `fail_world`. -/
theorem construct_load_failure_witness :
    (PythonBridge.construct fail_world 0 [] none).result =
        Except.error (Err.modelLoadFailure "load failed")
    ∧ (∀ h : HName,
        ((PythonBridge.construct fail_world 0 [] none).trace.count (Event.createHandle h)) =
          ((PythonBridge.construct fail_world 0 [] none).trace.count (Event.releaseHandle h)))
    ∧ PythonBridge.destruct ⟨0, none, none⟩ = [Event.gilAcquire, Event.gilRelease] :=
  construct_load_failure fail_world 0 [] none "/tmp/model" (Err.modelLoadFailure "load failed")
    rfl rfl rfl rfl

/-- C3: applying `set_python_path` twice (with disjoint path lists) leaves the
search-path variable containing the second call's paths, then the first call's
paths, then the original pre-existing value. -/
theorem set_python_path_twice (original : String) (l1 l2 : List String)
    (hd : ∀ p ∈ l1, p ∉ l2) :
    set_python_path l2 (set_python_path l1 (some original)) =
      some (python_path_string l2 none ++ python_path_string l1 none ++ original) := by
  simp [set_python_path, python_path_string_some, String.append_assoc]

/-- C3 witness: the theorem applied to the disjoint lists ["a"] and ["b"]. -/
theorem set_python_path_twice_witness :
    set_python_path ["b"] (set_python_path ["a"] (some "sys")) =
      some (python_path_string ["b"] none ++ python_path_string ["a"] none ++ "sys") :=
  set_python_path_twice "sys" ["a"] ["b"] (by decide)

/-- C4: on the success path, `infer_internal` performs exactly, in order: GIL
acquisition, one call of the model's infer entry point on the whole sealed
input dict, one application of the coercion pass to the whole raw output dict,
one conversion of the coerced dict to native tensors with the bridge's
allocator, and GIL release; the result is the converted mapping, and the trace
contains exactly one coercion-pass call. -/
theorem infer_internal_steps (w : PyWorld) (b : PythonBridge) (inputs : SealedPythonValueMap)
    (mo : Nat) (raw : PyDict)
    (h1 : b.neuropod_ = some mo) (h2 : b.maybe_convert_bindings_types_ = some ())
    (h3 : w.model_infer mo inputs.out = Except.ok raw) :
    PythonBridge.infer_internal w b inputs =
      ([Event.gilAcquire, Event.callModelInfer inputs.out, Event.callConvertTypes raw,
        Event.fromNumpyDictCall (w.convert_types raw), Event.gilRelease],
       Except.ok (from_numpy_dict b.allocator (w.convert_types raw)))
    ∧ ((PythonBridge.infer_internal w b inputs).1.filter Event.isCoercionCall).length = 1 := by
  obtain ⟨alloc, n, c⟩ := b
  simp only at h1 h2
  subst h1
  subst h2
  constructor
  · simp [PythonBridge.infer_internal, h3]
  · simp [PythonBridge.infer_internal, h3, Event.isCoercionCall]

/-- C4 witness: the theorem applied in `demo_world` on a one-entry sealed
input set. -/
theorem infer_internal_steps_witness :
    PythonBridge.infer_internal demo_world demo_bridge ⟨[("x", PyVal.numpyArray 3)]⟩ =
      ([Event.gilAcquire, Event.callModelInfer [("x", PyVal.numpyArray 3)],
        Event.callConvertTypes [("x", PyVal.numpyArray 3)],
        Event.fromNumpyDictCall (demo_world.convert_types [("x", PyVal.numpyArray 3)]),
        Event.gilRelease],
       Except.ok (from_numpy_dict demo_bridge.allocator
         (demo_world.convert_types [("x", PyVal.numpyArray 3)])))
    ∧ ((PythonBridge.infer_internal demo_world demo_bridge
          ⟨[("x", PyVal.numpyArray 3)]⟩).1.filter Event.isCoercionCall).length = 1 :=
  infer_internal_steps demo_world demo_bridge ⟨[("x", PyVal.numpyArray 3)]⟩ 7
    [("x", PyVal.numpyArray 3)] rfl rfl rfl

/-- C5 counterexample: in `demo_world`, construction creates the coercion
handle before the model handle, and the destructor does NOT release the model
handle before the coercion handle — so the release order (coercion first) is
the same as the creation order, not its reverse as the claim states. -/
theorem destructor_order_not_reverse :
    demo_construct.result = Except.ok demo_bridge
    ∧ List.indexOf (Event.createHandle HName.convertTypes) demo_construct.trace <
        List.indexOf (Event.createHandle HName.model) demo_construct.trace
    ∧ ¬ (List.indexOf (Event.releaseHandle HName.model) (PythonBridge.destruct demo_bridge) <
          List.indexOf (Event.releaseHandle HName.convertTypes)
            (PythonBridge.destruct demo_bridge)) :=
  ⟨rfl, by decide, by decide⟩

/-- C5 (amended): on destruction the GIL is acquired and the coercion helper
handle is released before the model handle; this release order matches the
creation order during construction (the coercion helper is created before the
model handle), not its reverse. -/
theorem destructor_release_order (w : PyWorld) (alloc : Nat) (paths : List String)
    (env : Option String) (p : String) (mo : Nat) (b : PythonBridge)
    (h1 : w.resolve_load_neuropod = Except.ok ()) (h2 : w.resolve_convert_types = Except.ok ())
    (h3 : w.ensure_local = Except.ok p) (h4 : w.load_neuropod p = Except.ok mo)
    (h5 : (PythonBridge.construct w alloc paths env).result = Except.ok b) :
    PythonBridge.destruct b =
      [Event.gilAcquire, Event.releaseHandle HName.convertTypes,
       Event.releaseHandle HName.model, Event.gilRelease]
    ∧ List.indexOf (Event.createHandle HName.convertTypes)
          (PythonBridge.construct w alloc paths env).trace <
        List.indexOf (Event.createHandle HName.model)
          (PythonBridge.construct w alloc paths env).trace := by
  simp only [PythonBridge.construct, h1, h2, h3, h4] at h5 ⊢
  obtain rfl : b = ⟨alloc, some mo, some ()⟩ := by
    cases h5
    rfl
  constructor
  · rfl
  · exact of_decide_eq_true rfl

/-- C5 witness: the amended theorem applied in `demo_world`. -/
theorem destructor_release_order_witness :
    PythonBridge.destruct demo_bridge =
      [Event.gilAcquire, Event.releaseHandle HName.convertTypes,
       Event.releaseHandle HName.model, Event.gilRelease]
    ∧ List.indexOf (Event.createHandle HName.convertTypes)
          (PythonBridge.construct demo_world 0 [] none).trace <
        List.indexOf (Event.createHandle HName.model)
          (PythonBridge.construct demo_world 0 [] none).trace :=
  destructor_release_order demo_world 0 [] none "/tmp/model" 7 demo_bridge rfl rfl rfl rfl rfl

/-- C6: sealing the same name twice into a sealed input set whose dict has
unique keys (as every py::dict does) leaves exactly one entry under that name,
holding the converted value from the second call. -/
theorem seal_overwrites (m : SealedPythonValueMap) (name : String) (t1 t2 : Nat)
    (h : (m.out.map Prod.fst).Nodup) :
    dictCount (((m.seal name t1).2.seal name t2).2.out) name = 1
    ∧ dictGet (((m.seal name t1).2.seal name t2).2.out) name = some (tensor_to_numpy t2) :=
  ⟨dictCount_dictSet _ _ _ (dictSet_keys_nodup _ _ h), dictGet_dictSet _ _ _⟩

/-- C6 witness: the theorem applied to the fresh sealed map returned by
`get_sealed_map`. -/
theorem seal_overwrites_witness :
    dictCount (((PythonBridge.get_sealed_map.2.seal "x" 1).2.seal "x" 2).2.out) "x" = 1
    ∧ dictGet (((PythonBridge.get_sealed_map.2.seal "x" 1).2.seal "x" 2).2.out) "x" =
        some (tensor_to_numpy 2) :=
  seal_overwrites PythonBridge.get_sealed_map.2 "x" 1 2 List.nodup_nil

/-- C7: when the interpreter is already running, `maybe_initialize` performs no
events (no symbol promotion, no environment modification), leaves the
interpreter state unchanged, and returns no gil-release token. -/
theorem maybe_initialize_noop_when_running (apple libpython_loadable : Bool)
    (st : InterpState) (h : st.running = true) :
    maybe_initialize apple libpython_loadable st = ([], Except.ok (st, none)) := by
  simp [ maybe_initialize, h]

/-- C7 witness: the theorem applied to a running interpreter state. -/
theorem maybe_initialize_noop_witness :
    maybe_initialize false true ⟨true, some "/venv", some "/opt/python"⟩ =
      ([], Except.ok (⟨true, some "/venv", some "/opt/python"⟩, none)) :=
  maybe_initialize_noop_when_running false true ⟨true, some "/venv", some "/opt/python"⟩ rfl

/-- C8: on a first-time initialization on a non-apple platform, if the dlopen
promotion of libpython fails, `maybe_initialize` returns the descriptive
startup error and its trace performs nothing beyond the dlopen attempt (the
interpreter is not started); and whenever the promotion succeeds, no other
step of initialization can fail. -/
theorem symbol_promotion_failure_fatal (st : InterpState) (h : st.running = false) :
    maybe_initialize false false st =
        ([Event.dlopenPromote],
         Except.error (Err.interpreterStartupFailure dlopen_error_message))
    ∧ (∀ (apple : Bool) (st2 : InterpState),
        ∃ r, ( maybe_initialize apple true st2).2 = Except.ok r) := by
  constructor
  · simp [ maybe_initialize, h]
  · intro apple st2
    cases hr : st2.running <;> cases hv : st2.virtual_env <;>
      simp [ maybe_initialize, hr, hv]

/-- C8 witness: the theorem applied to a fresh interpreter state. -/
theorem symbol_promotion_failure_witness :
    maybe_initialize false false ⟨false, none, none⟩ =
        ([Event.dlopenPromote],
         Except.error (Err.interpreterStartupFailure dlopen_error_message))
    ∧ (∀ (apple : Bool) (st2 : InterpState),
        ∃ r, ( maybe_initialize apple true st2).2 = Except.ok r) :=
  symbol_promotion_failure_fatal ⟨false, none, none⟩ rfl

/-- C10: every added directory is suffixed with a colon (so with no
pre-existing value the written string ends with a colon after the last
directory), and applying with an empty list and no pre-existing value
overwrites the variable with the empty string rather than leaving it unset. -/
theorem set_python_path_trailing_colon :
    (∀ (l : List String) (d : String),
        python_path_string (l ++ [d]) none = python_path_string l none ++ (d ++ ":"))
    ∧ set_python_path [] none = some "" :=
  ⟨python_path_string_concat, rfl⟩

end neuropod
